import Mathlib

/-
Verification of the VirtualCrypto ledger engine (virtualcrypto_core.py).

The sqlite database is embedded as a record of five relations (users, assets,
accounts, transactions, ledger_entries) together with the per-table
AUTOINCREMENT counters.  Decimal amounts, stored by the program as exact
decimal strings, are embedded as rationals.  Each database-mutating function
of the source is translated into a pure state-passing function; commands that
return without committing leave the database unchanged (closing the sqlite
connection without commit rolls the open transaction back), and an explicit
rollback is modelled as restoring the last committed snapshot.
-/

set_option autoImplicit false

namespace VirtualCrypto

/-- Account kind, the `type` column of `accounts`:
CHECK type IN (user, treasury, burn). -/
inductive AccountType
  | user
  | treasury
  | burn
deriving DecidableEq, Repr

/-- Boolean test for the SQL condition a.type = user. -/
def AccountType.isUser : AccountType → Bool
  | AccountType.user => true
  | _ => false

/-- Row of the `users` table (a Discord principal record). -/
structure UserRow where
  id : Nat
  discordUserId : Nat
deriving DecidableEq, Repr

/-- Row of the `assets` table: a currency scoped to one guild. -/
structure Asset where
  id : Nat
  guildId : Nat
  symbol : String
  name : String
  decimals : Nat
deriving DecidableEq, Repr

/-- Row of the `accounts` table. -/
structure Account where
  id : Nat
  userId : Option Nat
  guildId : Nat
  name : String
  type : AccountType
deriving DecidableEq, Repr

/-- Row of the `transactions` table (the timestamp column is irrelevant to
every claim and is omitted). -/
structure Txn where
  id : Nat
  guildId : Nat
  description : String
deriving DecidableEq, Repr

/-- Row of the `ledger_entries` table; `amount` is the exact decimal value. -/
structure LedgerEntry where
  transactionId : Nat
  accountId : Nat
  assetId : Nat
  amount : ℚ
deriving DecidableEq, Repr

/-- The whole sqlite database state. -/
structure DB where
  users : List UserRow
  assets : List Asset
  accounts : List Account
  transactions : List Txn
  entries : List LedgerEntry
  nextUserId : Nat
  nextAssetId : Nat
  nextAccountId : Nat
  nextTxId : Nat
deriving DecidableEq, Repr

/-- Freshly created database (sqlite AUTOINCREMENT ids start at 1). -/
def DB.empty : DB := ⟨[], [], [], [], [], 1, 1, 1, 1⟩

/-- SELECT SUM(CAST(amount AS DECIMAL)) FROM ledger_entries
WHERE account_id = ? AND asset_id = ?  (empty sum is 0). -/
def entriesSum (l : List LedgerEntry) (accountId assetId : Nat) : ℚ :=
  ((l.filter fun e => e.accountId == accountId && e.assetId == assetId).map
    LedgerEntry.amount).sum

/-- balance_of: the derived balance of an (account, asset) pair. -/
def balance_of (db : DB) (accountId assetId : Nat) : ℚ :=
  entriesSum db.entries accountId assetId

/-- SELECT SUM(CAST(amount AS DECIMAL)) FROM ledger_entries WHERE asset_id = ?
— the total used by the safety check of the delete command. -/
def assetSum (l : List LedgerEntry) (assetId : Nat) : ℚ :=
  ((l.filter fun e => e.assetId == assetId).map LedgerEntry.amount).sum

/-- Sum of the entry amounts of one transaction restricted to one asset. -/
def txAssetSum (l : List LedgerEntry) (txId assetId : Nat) : ℚ :=
  ((l.filter fun e => e.transactionId == txId && e.assetId == assetId).map
    LedgerEntry.amount).sum

/-- The fix_database users total: SUM over ledger_entries joined with accounts
WHERE asset_id = ? AND a.type = user AND a.guild_id = ?. -/
def users_total (db : DB) (guildId assetId : Nat) : ℚ :=
  ((db.entries.filter fun e => e.assetId == assetId &&
      db.accounts.any fun a =>
        a.id == e.accountId && AccountType.isUser a.type && a.guildId == guildId).map
    LedgerEntry.amount).sum

/-- upsert_user: look the principal up by discord_user_id, inserting a row on
first sight; returns the internal user id. -/
def upsert_user (db : DB) (discordUserId : Nat) : Nat × DB :=
  match db.users.find? (fun u => u.discordUserId == discordUserId) with
  | some u => (u.id, db)
  | none =>
      let uid := db.nextUserId
      (uid, { db with users := db.users ++ [⟨uid, discordUserId⟩],
                      nextUserId := uid + 1 })

/-- Deterministic user-account name: the text user: followed by the id. -/
def userAccountName (discordUserId : Nat) : String :=
  "user:" ++ toString discordUserId

/-- ensure_user_account: find-or-create the account of the user in the guild. -/
def ensure_user_account (db : DB) (discordUserId guildId : Nat) : Nat × DB :=
  let r := upsert_user db discordUserId
  match r.2.accounts.find?
      (fun a => a.name == userAccountName discordUserId && a.guildId == guildId) with
  | some a => (a.id, r.2)
  | none =>
      let aid := r.2.nextAccountId
      (aid, { r.2 with
                accounts := r.2.accounts ++
                  [⟨aid, some r.1, guildId, userAccountName discordUserId,
                    AccountType.user⟩],
                nextAccountId := aid + 1 })

/-- ensure_treasury_account: find-or-create the treasury account of the guild. -/
def ensure_treasury_account (db : DB) (guildId : Nat) : Nat × DB :=
  match db.accounts.find? (fun a => a.name == "treasury" && a.guildId == guildId) with
  | some a => (a.id, db)
  | none =>
      let aid := db.nextAccountId
      (aid, { db with
                accounts := db.accounts ++
                  [⟨aid, none, guildId, "treasury", AccountType.treasury⟩],
                nextAccountId := aid + 1 })

/-- ensure_burn_account: find-or-create the burn account of the guild (defined by
the source but called by no command). -/
def ensure_burn_account (db : DB) (guildId : Nat) : Nat × DB :=
  match db.accounts.find? (fun a => a.name == "burn" && a.guildId == guildId) with
  | some a => (a.id, db)
  | none =>
      let aid := db.nextAccountId
      (aid, { db with
                accounts := db.accounts ++
                  [⟨aid, none, guildId, "burn", AccountType.burn⟩],
                nextAccountId := aid + 1 })

/-- get_asset_by_symbol: SELECT ... FROM assets WHERE guild_id = ? AND symbol = ?. -/
def get_asset_by_symbol (db : DB) (guildId : Nat) (symbol : String) : Option Asset :=
  db.assets.find? (fun a => a.guildId == guildId && a.symbol == symbol)

/-- Outcome of the engine-level create_asset. -/
inductive CreateResult
  | duplicateSymbol
  | ok (assetId : Nat)
deriving DecidableEq, Repr

/-- create_asset: duplicate check, asset insert, treasury provisioning and,
for a positive initial supply, the single-entry genesis transaction; all
committed together. -/
def create_asset (db : DB) (guildId : Nat) (symbol name : String)
    (decimals : Nat) (initialSupply : ℚ) : CreateResult × DB :=
  match db.assets.find? (fun a => a.guildId == guildId && a.symbol == symbol) with
  | some _ => (CreateResult.duplicateSymbol, db)
  | none =>
      let assetId := db.nextAssetId
      let db1 := { db with
                     assets := db.assets ++ [⟨assetId, guildId, symbol, name, decimals⟩],
                     nextAssetId := assetId + 1 }
      let r := ensure_treasury_account db1 guildId
      let db3 :=
        if 0 < initialSupply then
          let txId := r.2.nextTxId
          let db2a := { r.2 with
                          transactions := r.2.transactions ++
                            ([⟨txId, guildId, "初期供給: " ++ symbol⟩] : List Txn),
                          nextTxId := txId + 1 }
          { db2a with entries := db2a.entries ++ ([⟨txId, r.1, assetId, initialSupply⟩] : List LedgerEntry) }
        else r.2
      (CreateResult.ok assetId, db3)

/-- transfer_currency: one transaction row, a -amount leg on the sender and a
+amount leg on the receiver (the success path; failures are modelled by
transfer_currency_withFailure). -/
def transfer_currency (db : DB) (guildId fromAccount toAccount assetId : Nat)
    (amount : ℚ) (description : String) : DB :=
  let txId := db.nextTxId
  let db1 := { db with
                 transactions := db.transactions ++ ([⟨txId, guildId, description⟩] : List Txn),
                 nextTxId := txId + 1 }
  let db2 := { db1 with entries := db1.entries ++ ([⟨txId, fromAccount, assetId, -amount⟩] : List LedgerEntry) }
  { db2 with entries := db2.entries ++ ([⟨txId, toAccount, assetId, amount⟩] : List LedgerEntry) }

/-- issue_currency: identical posting shape to transfer_currency, with the
treasury conventionally as from_account. -/
def issue_currency (db : DB) (guildId fromAccount toAccount assetId : Nat)
    (amount : ℚ) (description : String) : DB :=
  let txId := db.nextTxId
  let db1 := { db with
                 transactions := db.transactions ++ ([⟨txId, guildId, description⟩] : List Txn),
                 nextTxId := txId + 1 }
  let db2 := { db1 with entries := db1.entries ++ ([⟨txId, fromAccount, assetId, -amount⟩] : List LedgerEntry) }
  { db2 with entries := db2.entries ++ ([⟨txId, toAccount, assetId, amount⟩] : List LedgerEntry) }

/-- Rollback of an open sqlite transaction: the connection state reverts to
the last committed snapshot, discarding the uncommitted writes. -/
def db_rollback (committed _current : DB) : DB := committed

/-- transfer_currency with an injected storage failure: failAt = j (1 ≤ j ≤ 3)
means the j-th INSERT statement raises after the previous ones took effect;
the except-branch rolls the open transaction back.  failAt = 0 is the
failure-free run. -/
def transfer_currency_withFailure (db : DB) (guildId fromAccount toAccount assetId : Nat)
    (amount : ℚ) (description : String) (failAt : Nat) : Bool × DB :=
  if failAt = 1 then (false, db_rollback db db) else
  let txId := db.nextTxId
  let db1 := { db with
                 transactions := db.transactions ++ ([⟨txId, guildId, description⟩] : List Txn),
                 nextTxId := txId + 1 }
  if failAt = 2 then (false, db_rollback db db1) else
  let db2 := { db1 with entries := db1.entries ++ ([⟨txId, fromAccount, assetId, -amount⟩] : List LedgerEntry) }
  if failAt = 3 then (false, db_rollback db db2) else
  let db3 := { db2 with entries := db2.entries ++ ([⟨txId, toAccount, assetId, amount⟩] : List LedgerEntry) }
  (true, db3)

/-- issue_currency with an injected storage failure, as for transfers. -/
def issue_currency_withFailure (db : DB) (guildId fromAccount toAccount assetId : Nat)
    (amount : ℚ) (description : String) (failAt : Nat) : Bool × DB :=
  if failAt = 1 then (false, db_rollback db db) else
  let txId := db.nextTxId
  let db1 := { db with
                 transactions := db.transactions ++ ([⟨txId, guildId, description⟩] : List Txn),
                 nextTxId := txId + 1 }
  if failAt = 2 then (false, db_rollback db db1) else
  let db2 := { db1 with entries := db1.entries ++ ([⟨txId, fromAccount, assetId, -amount⟩] : List LedgerEntry) }
  if failAt = 3 then (false, db_rollback db db2) else
  let db3 := { db2 with entries := db2.entries ++ ([⟨txId, toAccount, assetId, amount⟩] : List LedgerEntry) }
  (true, db3)

/-- Truncation toward zero, the ROUND_DOWN mode of Python Decimal. -/
def truncTowardZero (q : ℚ) : ℤ :=
  if 0 ≤ q then ⌊q⌋ else ⌈q⌉

/-- The quantize call: amount.quantize with exponent 10^(-decimals) and rounding ROUND_DOWN. -/
def quantizeDown (decimals : Nat) (q : ℚ) : ℚ :=
  ((truncTowardZero (q * 10 ^ decimals) : ℚ)) / 10 ^ decimals

/-- is_valid_currency_symbol: symbol.isalnum() and 1 <= len(symbol) <= 16. -/
def is_valid_currency_symbol (symbol : String) : Bool :=
  symbol.data.all Char.isAlphanum && decide (1 ≤ symbol.length) &&
    decide (symbol.length ≤ 16)

/-- Outcome of the /create command. -/
inductive CreateCmdResult
  | invalidSymbol
  | invalidSupply
  | duplicateSymbol
  | created (assetId : Nat)
deriving DecidableEq, Repr

/-- create_currency_command (database part): symbol validation, supply
validation, then create_asset. -/
def create_currency_command (db : DB) (guildId : Nat) (symbol name : String)
    (decimals : Nat) (initialSupply : Int) : CreateCmdResult × DB :=
  if !is_valid_currency_symbol symbol then (CreateCmdResult.invalidSymbol, db)
  else if initialSupply < 0 then (CreateCmdResult.invalidSupply, db)
  else
    match create_asset db guildId symbol name decimals (initialSupply : ℚ) with
    | (CreateResult.duplicateSymbol, db1) => (CreateCmdResult.duplicateSymbol, db1)
    | (CreateResult.ok assetId, db1) => (CreateCmdResult.created assetId, db1)

/-- Outcome of the /pay command. -/
inductive PayResult
  | selfPay
  | invalidAmount
  | assetNotFound
  | insufficientBalance
  | paid
deriving DecidableEq, Repr

/-- pay_currency_command (database part): self-pay and positivity checks,
asset lookup, ROUND_DOWN quantization to the decimals of the asset, account
provisioning, balance check, then transfer_currency and commit.  Error
returns before the commit leave the database at the committed snapshot. -/
def pay_currency_command (db : DB) (guildId fromUser toUser : Nat)
    (symbol : String) (amount : ℚ) : PayResult × DB :=
  if toUser = fromUser then (PayResult.selfPay, db)
  else if amount ≤ 0 then (PayResult.invalidAmount, db)
  else
    match get_asset_by_symbol db guildId symbol with
    | none => (PayResult.assetNotFound, db)
    | some asset =>
        let amountQ := quantizeDown asset.decimals amount
        let rFrom := ensure_user_account db fromUser guildId
        let rTo := ensure_user_account rFrom.2 toUser guildId
        if balance_of rTo.2 rFrom.1 asset.id < amountQ then
          (PayResult.insufficientBalance, db)
        else
          (PayResult.paid,
            transfer_currency rTo.2 guildId rFrom.1 rTo.1 asset.id amountQ
              ("送金: " ++ toString fromUser ++ " -> " ++ toString toUser))

/-- Outcome of the /give command. -/
inductive GiveResult
  | invalidAmount
  | assetNotFound
  | insufficientBalance
  | issued
deriving DecidableEq, Repr

/-- give_currency_command (database part): positivity check, asset lookup,
ROUND_DOWN quantization, treasury balance check, then transfer_currency from
the treasury (the source issues via transfer_currency) and commit. -/
def give_currency_command (db : DB) (guildId toUser : Nat)
    (symbol : String) (amount : ℚ) : GiveResult × DB :=
  if amount ≤ 0 then (GiveResult.invalidAmount, db)
  else
    match get_asset_by_symbol db guildId symbol with
    | none => (GiveResult.assetNotFound, db)
    | some asset =>
        let amountQ := quantizeDown asset.decimals amount
        let rT := ensure_treasury_account db guildId
        let rU := ensure_user_account rT.2 toUser guildId
        if balance_of rU.2 rT.1 asset.id < amountQ then
          (GiveResult.insufficientBalance, db)
        else
          (GiveResult.issued,
            transfer_currency rU.2 guildId rT.1 rU.1 asset.id amountQ
              ("発行: Treasury -> " ++ toString toUser))

/-- Outcome of the /delete command. -/
inductive DeleteResult
  | notFound
  | assetInUse
  | deleted
deriving DecidableEq, Repr

/-- delete_currency_command (database part): asset lookup, total-balance
safety check, then deletion of the entries of the asset followed by the asset
row, committed together. -/
def delete_currency_command (db : DB) (guildId : Nat) (symbol : String) :
    DeleteResult × DB :=
  match get_asset_by_symbol db guildId symbol with
  | none => (DeleteResult.notFound, db)
  | some asset =>
      if assetSum db.entries asset.id ≠ 0 then (DeleteResult.assetInUse, db)
      else
        let db1 := { db with entries := db.entries.filter fun e => !(e.assetId == asset.id) }
        let db2 := { db1 with assets := db1.assets.filter fun a => !(a.id == asset.id) }
        (DeleteResult.deleted, db2)

/-- The per-asset body of the fix_database repair loop: rebalance the
treasury to users_total + 1000000 by a single adjustment entry, posting
nothing when the adjustment is zero. -/
def fix_asset (db : DB) (guildId treasuryAccount assetId : Nat)
    (symbol : String) : DB :=
  let treasuryBalance := balance_of db treasuryAccount assetId
  let usersBalance := users_total db guildId assetId
  let target := usersBalance + 1000000
  let adjustment := target - treasuryBalance
  if adjustment ≠ 0 then
    let txId := db.nextTxId
    let db1 := { db with
                   transactions := db.transactions ++
                     ([⟨txId, guildId, "DB修復: " ++ symbol ++ " Treasury残高調整"⟩] : List Txn),
                   nextTxId := txId + 1 }
    { db1 with entries := db1.entries ++ ([⟨txId, treasuryAccount, assetId, adjustment⟩] : List LedgerEntry) }
  else db

/-- fix_database over all assets of the guild. -/
def fix_database (db : DB) (guildId : Nat) : DB :=
  let rT := ensure_treasury_account db guildId
  (rT.2.assets.filter fun a => a.guildId == guildId).foldl
    (fun acc a => fix_asset acc guildId rT.1 a.id a.symbol) rT.2

/-- Zero-sum property: the entries of every transaction, grouped by asset, sum to
zero. -/
def ZeroSumInvariant (db : DB) : Prop :=
  ∀ t ∈ db.transactions, ∀ e ∈ db.entries, e.transactionId = t.id →
    txAssetSum db.entries t.id e.assetId = 0

/-- A transaction row exists iff at least one entry references it. -/
def TxEntryIff (db : DB) : Prop :=
  (∀ t ∈ db.transactions, ∃ e ∈ db.entries, e.transactionId = t.id) ∧
  (∀ e ∈ db.entries, ∃ t ∈ db.transactions, t.id = e.transactionId)

/-- Every stored transaction id is below the AUTOINCREMENT counter (sqlite
guarantees this for a table it assigns the ids of). -/
def TxIdsBounded (db : DB) : Prop :=
  (∀ t ∈ db.transactions, t.id < db.nextTxId) ∧
  (∀ e ∈ db.entries, e.transactionId < db.nextTxId)

/-- The UNIQUE(guild_id, symbol) schema constraint on assets. -/
def AssetsUnique (db : DB) : Prop :=
  ∀ a ∈ db.assets, ∀ b ∈ db.assets, a.guildId = b.guildId → a.symbol = b.symbol → a = b

/-! Helper lemmas about the summation helpers and the provisioning frame. -/

theorem entriesSum_append (l₁ l₂ : List LedgerEntry) (a x : Nat) :
    entriesSum (l₁ ++ l₂) a x = entriesSum l₁ a x + entriesSum l₂ a x := by
  simp [entriesSum, List.filter_append]

theorem entriesSum_nil (a x : Nat) : entriesSum [] a x = 0 := rfl

theorem entriesSum_cons (e : LedgerEntry) (l : List LedgerEntry) (a x : Nat) :
    entriesSum (e :: l) a x =
      (if e.accountId = a ∧ e.assetId = x then e.amount else 0) + entriesSum l a x := by
  by_cases h1 : e.accountId = a <;> by_cases h2 : e.assetId = x <;>
    simp [entriesSum, List.filter_cons, h1, h2]

theorem entriesSum_singleton (e : LedgerEntry) (a x : Nat) :
    entriesSum [e] a x = if e.accountId = a ∧ e.assetId = x then e.amount else 0 := by
  rw [entriesSum_cons, entriesSum_nil, add_zero]

theorem txAssetSum_append (l₁ l₂ : List LedgerEntry) (t x : Nat) :
    txAssetSum (l₁ ++ l₂) t x = txAssetSum l₁ t x + txAssetSum l₂ t x := by
  simp [txAssetSum, List.filter_append]

theorem txAssetSum_nil (t x : Nat) : txAssetSum [] t x = 0 := rfl

theorem txAssetSum_cons (e : LedgerEntry) (l : List LedgerEntry) (t x : Nat) :
    txAssetSum (e :: l) t x =
      (if e.transactionId = t ∧ e.assetId = x then e.amount else 0) + txAssetSum l t x := by
  by_cases h1 : e.transactionId = t <;> by_cases h2 : e.assetId = x <;>
    simp [txAssetSum, List.filter_cons, h1, h2]

theorem txAssetSum_singleton (e : LedgerEntry) (t x : Nat) :
    txAssetSum [e] t x = if e.transactionId = t ∧ e.assetId = x then e.amount else 0 := by
  rw [txAssetSum_cons, txAssetSum_nil, add_zero]

theorem txAssetSum_eq_zero_of_ne (l : List LedgerEntry) (t x : Nat)
    (h : ∀ e ∈ l, e.transactionId ≠ t) : txAssetSum l t x = 0 := by
  have hnil : l.filter (fun e => e.transactionId == t && e.assetId == x) = [] := by
    rw [List.filter_eq_nil_iff]
    intro e he
    simp only [Bool.and_eq_true, beq_iff_eq]
    exact fun hc => h e he hc.1
  simp [txAssetSum, hnil]

theorem find?_append_left_none {α : Type _} (p : α → Bool) (l₁ l₂ : List α)
    (h : l₁.find? p = none) : (l₁ ++ l₂).find? p = l₂.find? p := by
  rw [List.find?_append, h, Option.none_or]

theorem upsert_user_entries (db : DB) (d : Nat) :
    (upsert_user db d).2.entries = db.entries := by
  unfold upsert_user
  cases db.users.find? (fun u => u.discordUserId == d) <;> simp

theorem upsert_user_transactions (db : DB) (d : Nat) :
    (upsert_user db d).2.transactions = db.transactions := by
  unfold upsert_user
  cases db.users.find? (fun u => u.discordUserId == d) <;> simp

theorem upsert_user_nextTxId (db : DB) (d : Nat) :
    (upsert_user db d).2.nextTxId = db.nextTxId := by
  unfold upsert_user
  cases db.users.find? (fun u => u.discordUserId == d) <;> simp

theorem upsert_user_assets (db : DB) (d : Nat) :
    (upsert_user db d).2.assets = db.assets := by
  unfold upsert_user
  cases db.users.find? (fun u => u.discordUserId == d) <;> simp

theorem upsert_user_nextAssetId (db : DB) (d : Nat) :
    (upsert_user db d).2.nextAssetId = db.nextAssetId := by
  unfold upsert_user
  cases db.users.find? (fun u => u.discordUserId == d) <;> simp

theorem ensure_user_account_entries (db : DB) (d g : Nat) :
    (ensure_user_account db d g).2.entries = db.entries := by
  simp only [ensure_user_account]
  split <;> simp [upsert_user_entries]

theorem ensure_user_account_transactions (db : DB) (d g : Nat) :
    (ensure_user_account db d g).2.transactions = db.transactions := by
  simp only [ensure_user_account]
  split <;> simp [upsert_user_transactions]

theorem ensure_user_account_nextTxId (db : DB) (d g : Nat) :
    (ensure_user_account db d g).2.nextTxId = db.nextTxId := by
  simp only [ensure_user_account]
  split <;> simp [upsert_user_nextTxId]

theorem ensure_user_account_assets (db : DB) (d g : Nat) :
    (ensure_user_account db d g).2.assets = db.assets := by
  simp only [ensure_user_account]
  split <;> simp [upsert_user_assets]

theorem ensure_user_account_nextAssetId (db : DB) (d g : Nat) :
    (ensure_user_account db d g).2.nextAssetId = db.nextAssetId := by
  simp only [ensure_user_account]
  split <;> simp [upsert_user_nextAssetId]

theorem ensure_treasury_account_entries (db : DB) (g : Nat) :
    (ensure_treasury_account db g).2.entries = db.entries := by
  unfold ensure_treasury_account
  cases db.accounts.find? (fun a => a.name == "treasury" && a.guildId == g) <;> simp

theorem ensure_treasury_account_transactions (db : DB) (g : Nat) :
    (ensure_treasury_account db g).2.transactions = db.transactions := by
  unfold ensure_treasury_account
  cases db.accounts.find? (fun a => a.name == "treasury" && a.guildId == g) <;> simp

theorem ensure_treasury_account_nextTxId (db : DB) (g : Nat) :
    (ensure_treasury_account db g).2.nextTxId = db.nextTxId := by
  unfold ensure_treasury_account
  cases db.accounts.find? (fun a => a.name == "treasury" && a.guildId == g) <;> simp

theorem ensure_treasury_account_assets (db : DB) (g : Nat) :
    (ensure_treasury_account db g).2.assets = db.assets := by
  unfold ensure_treasury_account
  cases db.accounts.find? (fun a => a.name == "treasury" && a.guildId == g) <;> simp

theorem ensure_treasury_account_nextAssetId (db : DB) (g : Nat) :
    (ensure_treasury_account db g).2.nextAssetId = db.nextAssetId := by
  unfold ensure_treasury_account
  cases db.accounts.find? (fun a => a.name == "treasury" && a.guildId == g) <;> simp

theorem upsert_user_find (db : DB) (d : Nat) :
    (upsert_user db d).2.users.find? (fun u => u.discordUserId == d) =
      some ⟨(upsert_user db d).1, d⟩ := by
  unfold upsert_user
  cases h : db.users.find? (fun u => u.discordUserId == d) with
  | none =>
      simp only []
      rw [find?_append_left_none _ _ _ h]
      simp [List.find?_cons]
  | some u =>
      have hu : u.discordUserId = d := by
        have hpu := List.find?_some h
        simpa using hpu
      simp only [h]
      cases u with
      | mk i dd => simp_all

theorem upsert_user_of_find (db : DB) (d : Nat) (u : UserRow)
    (h : db.users.find? (fun x => x.discordUserId == d) = some u) :
    upsert_user db d = (u.id, db) := by
  unfold upsert_user
  rw [h]

theorem upsert_user_stable (db db' : DB) (d : Nat)
    (h : db'.users = (upsert_user db d).2.users) :
    upsert_user db' d = ((upsert_user db d).1, db') := by
  exact upsert_user_of_find db' d ⟨(upsert_user db d).1, d⟩
    (by rw [h]; exact upsert_user_find db d)

/-- C6: ensure_user_account is idempotent — calling it twice with the same
principal and guild returns the same account id both times and the second
call leaves the database unchanged (no duplicate user or account row). -/
theorem ensure_user_account_idempotent (db : DB) (d g : Nat) :
    ensure_user_account (ensure_user_account db d g).2 d g =
      ensure_user_account db d g := by
  rcases hfind : (upsert_user db d).2.accounts.find?
      (fun a => a.name == userAccountName d && a.guildId == g) with _ | a
  · -- the first call inserts a fresh account row
    have h1 : ensure_user_account db d g =
        ((upsert_user db d).2.nextAccountId,
          { (upsert_user db d).2 with
              accounts := (upsert_user db d).2.accounts ++
                [⟨(upsert_user db d).2.nextAccountId, some (upsert_user db d).1, g,
                  userAccountName d, AccountType.user⟩],
              nextAccountId := (upsert_user db d).2.nextAccountId + 1 }) := by
      simp only [ensure_user_account]
      rw [hfind]
    rw [h1]
    simp only [ensure_user_account]
    rw [upsert_user_stable db _ d (by simp)]
    rw [find?_append_left_none _ _ _ hfind]
    simp [List.find?_cons]
  · -- the first call found an existing account row
    have h1 : ensure_user_account db d g = (a.id, (upsert_user db d).2) := by
      simp only [ensure_user_account]
      rw [hfind]
    rw [h1]
    simp only [ensure_user_account]
    rw [upsert_user_stable db _ d (by simp)]
    rw [hfind]

/-- C2: the balance of a pair is derived as the sum of its entries, and a
transfer of n of asset x from account A to account B lowers the balance of A
by n, raises that of B by n and leaves every other (account, asset) pair
untouched. -/
theorem transfer_balance_spec (db : DB) (g A B x : Nat) (n : ℚ) (d : String)
    (c y : Nat) (hAB : A ≠ B) (hc1 : ¬(A = c ∧ x = y)) (hc2 : ¬(B = c ∧ x = y)) :
    balance_of db A x =
      ((db.entries.filter fun e => e.accountId == A && e.assetId == x).map
        LedgerEntry.amount).sum ∧
    balance_of (transfer_currency db g A B x n d) A x = balance_of db A x - n ∧
    balance_of (transfer_currency db g A B x n d) B x = balance_of db B x + n ∧
    balance_of (transfer_currency db g A B x n d) c y = balance_of db c y := by
  have hBA : B ≠ A := Ne.symm hAB
  refine ⟨rfl, ?_, ?_, ?_⟩ <;>
    simp [transfer_currency, balance_of, entriesSum_append, entriesSum_cons,
      entriesSum_nil, hAB, hBA, hc1, hc2]
  all_goals ring

/-- Closed instance of transfer_balance_spec at a concrete database. -/
theorem transfer_balance_spec_witness :
    balance_of DB.empty 1 1 =
      ((DB.empty.entries.filter fun e => e.accountId == 1 && e.assetId == 1).map
        LedgerEntry.amount).sum ∧
    balance_of (transfer_currency DB.empty 1 1 2 1 5 "t") 1 1 =
      balance_of DB.empty 1 1 - 5 ∧
    balance_of (transfer_currency DB.empty 1 1 2 1 5 "t") 2 1 =
      balance_of DB.empty 2 1 + 5 ∧
    balance_of (transfer_currency DB.empty 1 1 2 1 5 "t") 3 1 =
      balance_of DB.empty 3 1 :=
  transfer_balance_spec DB.empty 1 1 2 1 5 "t" 3 1 (by decide)
    (by decide) (by decide)

/-- C3: posting is atomic — if a storage failure hits the j-th INSERT of the
posting path (transaction row first, then the two entry rows), the rollback
leaves the committed database exactly as it was, so neither the transaction
row nor any entry of the failed posting is visible; the failure-free run is
the ordinary posting. -/
theorem posting_atomicity (db : DB) (g fa ta aid : Nat) (n : ℚ) (d : String)
    (j : Nat) (h1 : 1 ≤ j) (h3 : j ≤ 3) :
    transfer_currency_withFailure db g fa ta aid n d j = (false, db) ∧
    issue_currency_withFailure db g fa ta aid n d j = (false, db) ∧
    transfer_currency_withFailure db g fa ta aid n d 0 =
      (true, transfer_currency db g fa ta aid n d) ∧
    issue_currency_withFailure db g fa ta aid n d 0 =
      (true, issue_currency db g fa ta aid n d) := by
  interval_cases j <;>
    simp [transfer_currency_withFailure, issue_currency_withFailure,
      transfer_currency, issue_currency, db_rollback]

/-- Closed instance of posting_atomicity with the failure on the second
INSERT (after the transaction row, before the entries are complete). -/
theorem posting_atomicity_witness :
    transfer_currency_withFailure DB.empty 1 1 2 1 5 "t" 2 = (false, DB.empty) ∧
    issue_currency_withFailure DB.empty 1 1 2 1 5 "t" 2 = (false, DB.empty) ∧
    transfer_currency_withFailure DB.empty 1 1 2 1 5 "t" 0 =
      (true, transfer_currency DB.empty 1 1 2 1 5 "t") ∧
    issue_currency_withFailure DB.empty 1 1 2 1 5 "t" 0 =
      (true, issue_currency DB.empty 1 1 2 1 5 "t") :=
  posting_atomicity DB.empty 1 1 2 1 5 "t" 2 (by decide) (by decide)

/-- C5: with an asset already present for (guild, symbol), create_asset fails
as a duplicate and inserts nothing; with the same symbol free in another
guild, create_asset succeeds there and inserts the asset row. -/
theorem create_asset_symbol_scope (db : DB) (g g' : Nat) (sym nm nm' : String)
    (dec dec' : Nat) (s s' : ℚ) (a : Asset)
    (hdup : get_asset_by_symbol db g sym = some a)
    (_hne : g' ≠ g)
    (hfree : get_asset_by_symbol db g' sym = none) :
    create_asset db g sym nm dec s = (CreateResult.duplicateSymbol, db) ∧
    (create_asset db g' sym nm' dec' s').1 = CreateResult.ok db.nextAssetId ∧
    (⟨db.nextAssetId, g', sym, nm', dec'⟩ : Asset) ∈ (create_asset db g' sym nm' dec' s').2.assets := by
  unfold get_asset_by_symbol at hdup hfree
  refine ⟨?_, ?_, ?_⟩
  · unfold create_asset
    rw [hdup]
  · unfold create_asset
    rw [hfree]
  · unfold create_asset
    rw [hfree]
    simp only []
    split <;>
      simp [ensure_treasury_account_assets]

/-- Closed instance of create_asset_symbol_scope: GOLD exists in guild 1,
creating GOLD again in guild 1 fails, creating GOLD in guild 2 succeeds. -/
theorem create_asset_symbol_scope_witness :
    create_asset (create_asset DB.empty 1 "GOLD" "Gold" 2 0).2 1 "GOLD" "Gold2" 0 0 =
      (CreateResult.duplicateSymbol, (create_asset DB.empty 1 "GOLD" "Gold" 2 0).2) ∧
    (create_asset (create_asset DB.empty 1 "GOLD" "Gold" 2 0).2 2 "GOLD" "Gold2" 0 0).1 =
      CreateResult.ok (create_asset DB.empty 1 "GOLD" "Gold" 2 0).2.nextAssetId ∧
    (⟨(create_asset DB.empty 1 "GOLD" "Gold" 2 0).2.nextAssetId, 2, "GOLD", "Gold2", 0⟩ : Asset) ∈
      (create_asset (create_asset DB.empty 1 "GOLD" "Gold" 2 0).2 2 "GOLD" "Gold2" 0 0).2.assets :=
  create_asset_symbol_scope (create_asset DB.empty 1 "GOLD" "Gold" 2 0).2 1 2
    "GOLD" "Gold2" "Gold2" 0 0 0 0 ⟨1, 1, "GOLD", "Gold", 2⟩ (by decide) (by decide) (by decide)

/-- C4: when the entries of the asset total exactly zero, the delete command
succeeds, removes exactly the entries of the asset and the asset row, and a
subsequent lookup by symbol finds nothing; when the total is nonzero it
fails as in-use and removes no row. -/
theorem delete_currency_spec (db : DB) (g : Nat) (sym : String) (asset : Asset)
    (huniq : AssetsUnique db)
    (hfind : get_asset_by_symbol db g sym = some asset) :
    (assetSum db.entries asset.id = 0 →
       (delete_currency_command db g sym).1 = DeleteResult.deleted ∧
       (∀ e ∈ (delete_currency_command db g sym).2.entries, e.assetId ≠ asset.id) ∧
       (∀ e ∈ db.entries, e.assetId ≠ asset.id →
          e ∈ (delete_currency_command db g sym).2.entries) ∧
       asset ∉ (delete_currency_command db g sym).2.assets ∧
       get_asset_by_symbol (delete_currency_command db g sym).2 g sym = none) ∧
    (assetSum db.entries asset.id ≠ 0 →
       delete_currency_command db g sym = (DeleteResult.assetInUse, db)) := by
  have hmem := List.mem_of_find?_eq_some hfind
  have hpa := List.find?_some hfind
  simp only [Bool.and_eq_true, beq_iff_eq] at hpa
  constructor
  · intro hzero
    have hdel : delete_currency_command db g sym =
        (DeleteResult.deleted,
          { db with
              entries := db.entries.filter fun e => !(e.assetId == asset.id),
              assets := db.assets.filter fun a => !(a.id == asset.id) }) := by
      unfold delete_currency_command
      rw [hfind]
      simp [hzero]
    rw [hdel]
    refine ⟨rfl, ?_, ?_, ?_, ?_⟩
    · intro e he
      have := (List.mem_filter.mp he).2
      simpa using this
    · intro e he hne
      exact List.mem_filter.mpr ⟨he, by simpa using hne⟩
    · intro hmem'
      have := (List.mem_filter.mp hmem').2
      simp at this
    · rw [get_asset_by_symbol, List.find?_eq_none]
      intro b hb
      have hb1 := (List.mem_filter.mp hb).1
      have hb2 := (List.mem_filter.mp hb).2
      simp only [Bool.and_eq_true, beq_iff_eq]
      rintro ⟨hbg, hbs⟩
      have : b = asset := huniq b hb1 asset hmem (hbg.trans hpa.1.symm) (hbs.trans hpa.2.symm)
      rw [this] at hb2
      simp at hb2
  · intro hnz
    unfold delete_currency_command
    rw [hfind]
    simp [hnz]

/-- Concrete database whose GOLD entries total exactly zero. -/
def dbZeroTotal : DB :=
  { users := [],
    assets := [⟨1, 1, "GOLD", "Gold", 2⟩],
    accounts := [⟨1, none, 1, "treasury", AccountType.treasury⟩,
                 ⟨2, some 1, 1, "user:10", AccountType.user⟩],
    transactions := [⟨1, 1, "t"⟩],
    entries := [⟨1, 1, 1, -5⟩, ⟨1, 2, 1, 5⟩],
    nextUserId := 2, nextAssetId := 2, nextAccountId := 3, nextTxId := 2 }

/-- Concrete database whose GOLD entries total 1000. -/
def dbNonzeroTotal : DB :=
  { users := [],
    assets := [⟨1, 1, "GOLD", "Gold", 2⟩],
    accounts := [⟨1, none, 1, "treasury", AccountType.treasury⟩],
    transactions := [⟨1, 1, "genesis"⟩],
    entries := [⟨1, 1, 1, 1000⟩],
    nextUserId := 1, nextAssetId := 2, nextAccountId := 2, nextTxId := 2 }

/-- Closed instances of delete_currency_spec: a zero-total asset is deleted
and vanishes from lookup; a nonzero-total asset is kept untouched. -/
theorem delete_currency_spec_witness :
    ((delete_currency_command dbZeroTotal 1 "GOLD").1 = DeleteResult.deleted ∧
      get_asset_by_symbol (delete_currency_command dbZeroTotal 1 "GOLD").2 1 "GOLD" = none) ∧
    delete_currency_command dbNonzeroTotal 1 "GOLD" = (DeleteResult.assetInUse, dbNonzeroTotal) := by
  have huniqZ : AssetsUnique dbZeroTotal := by
    intro a ha b hb h1 h2
    simp only [dbZeroTotal, List.mem_singleton] at ha hb
    rw [ha, hb]
  have huniqN : AssetsUnique dbNonzeroTotal := by
    intro a ha b hb h1 h2
    simp only [dbNonzeroTotal, List.mem_singleton] at ha hb
    rw [ha, hb]
  have hzero : assetSum dbZeroTotal.entries (1 : Nat) = 0 := by
    norm_num [dbZeroTotal, assetSum, List.filter_cons, List.filter_nil]
  have hnz : assetSum dbNonzeroTotal.entries (1 : Nat) ≠ 0 := by
    norm_num [dbNonzeroTotal, assetSum, List.filter_cons, List.filter_nil]
  constructor
  · have h := (delete_currency_spec dbZeroTotal 1 "GOLD" ⟨1, 1, "GOLD", "Gold", 2⟩
      huniqZ rfl).1 hzero
    exact ⟨h.1, h.2.2.2.2⟩
  · exact (delete_currency_spec dbNonzeroTotal 1 "GOLD" ⟨1, 1, "GOLD", "Gold", 2⟩
      huniqN rfl).2 hnz

/-! Concrete evaluation of a command chain: create GOLD (decimals 2, supply
0), then /pay 0.001 GOLD from user 10 to user 20 (which quantizes to 0 and
passes the balance check), then /give and /delete on the results. -/

/-- Database after creating GOLD with zero initial supply. -/
def dbGold : DB :=
  { users := [],
    assets := [⟨1, 1, "GOLD", "Gold", 2⟩],
    accounts := [⟨1, none, 1, "treasury", AccountType.treasury⟩],
    transactions := [], entries := [],
    nextUserId := 1, nextAssetId := 2, nextAccountId := 2, nextTxId := 1 }

/-- dbGold after provisioning the account of user 10. -/
def dbU10 : DB :=
  { users := [⟨1, 10⟩],
    assets := [⟨1, 1, "GOLD", "Gold", 2⟩],
    accounts := [⟨1, none, 1, "treasury", AccountType.treasury⟩,
                 ⟨2, some 1, 1, "user:10", AccountType.user⟩],
    transactions := [], entries := [],
    nextUserId := 2, nextAssetId := 2, nextAccountId := 3, nextTxId := 1 }

/-- dbU10 after provisioning the account of user 20. -/
def dbU20 : DB :=
  { users := [⟨1, 10⟩, ⟨2, 20⟩],
    assets := [⟨1, 1, "GOLD", "Gold", 2⟩],
    accounts := [⟨1, none, 1, "treasury", AccountType.treasury⟩,
                 ⟨2, some 1, 1, "user:10", AccountType.user⟩,
                 ⟨3, some 2, 1, "user:20", AccountType.user⟩],
    transactions := [], entries := [],
    nextUserId := 3, nextAssetId := 2, nextAccountId := 4, nextTxId := 1 }

/-- Database after the 0.001-GOLD pay: one transaction with two zero legs. -/
def dbPaid : DB :=
  { users := [⟨1, 10⟩, ⟨2, 20⟩],
    assets := [⟨1, 1, "GOLD", "Gold", 2⟩],
    accounts := [⟨1, none, 1, "treasury", AccountType.treasury⟩,
                 ⟨2, some 1, 1, "user:10", AccountType.user⟩,
                 ⟨3, some 2, 1, "user:20", AccountType.user⟩],
    transactions := [⟨1, 1, "送金: 10 -> 20"⟩],
    entries := [⟨1, 2, 1, 0⟩, ⟨1, 3, 1, 0⟩],
    nextUserId := 3, nextAssetId := 2, nextAccountId := 4, nextTxId := 2 }

/-- dbGold after provisioning the account of user 20 (the give path). -/
def dbT20 : DB :=
  { users := [⟨1, 20⟩],
    assets := [⟨1, 1, "GOLD", "Gold", 2⟩],
    accounts := [⟨1, none, 1, "treasury", AccountType.treasury⟩,
                 ⟨2, some 1, 1, "user:20", AccountType.user⟩],
    transactions := [], entries := [],
    nextUserId := 2, nextAssetId := 2, nextAccountId := 3, nextTxId := 1 }

/-- Database after the 0.001-GOLD give: one transaction with two zero legs. -/
def dbGiven : DB :=
  { users := [⟨1, 20⟩],
    assets := [⟨1, 1, "GOLD", "Gold", 2⟩],
    accounts := [⟨1, none, 1, "treasury", AccountType.treasury⟩,
                 ⟨2, some 1, 1, "user:20", AccountType.user⟩],
    transactions := [⟨1, 1, "発行: Treasury -> 20"⟩],
    entries := [⟨1, 1, 1, 0⟩, ⟨1, 2, 1, 0⟩],
    nextUserId := 2, nextAssetId := 2, nextAccountId := 3, nextTxId := 2 }

/-- dbPaid after deleting GOLD: the transaction row survives its entries. -/
def dbDeleted : DB :=
  { users := [⟨1, 10⟩, ⟨2, 20⟩],
    assets := [],
    accounts := [⟨1, none, 1, "treasury", AccountType.treasury⟩,
                 ⟨2, some 1, 1, "user:10", AccountType.user⟩,
                 ⟨3, some 2, 1, "user:20", AccountType.user⟩],
    transactions := [⟨1, 1, "送金: 10 -> 20"⟩],
    entries := [],
    nextUserId := 3, nextAssetId := 2, nextAccountId := 4, nextTxId := 2 }

theorem eval_create :
    create_currency_command DB.empty 1 "GOLD" "Gold" 2 0 =
      (CreateCmdResult.created 1, dbGold) := rfl

theorem lookup_gold :
    get_asset_by_symbol dbGold 1 "GOLD" = some ⟨1, 1, "GOLD", "Gold", 2⟩ := rfl

theorem ensure10 : ensure_user_account dbGold 10 1 = (2, dbU10) := rfl

theorem ensure20 : ensure_user_account dbU10 20 1 = (3, dbU20) := rfl

theorem quant_small : quantizeDown 2 ((1 : ℚ)/1000) = 0 := by
  norm_num [quantizeDown, truncTowardZero]

theorem bal_dbU20 : balance_of dbU20 2 1 = 0 := rfl

theorem eval_pay :
    pay_currency_command dbGold 1 10 20 "GOLD" ((1 : ℚ)/1000) =
      (PayResult.paid, dbPaid) := by
  unfold pay_currency_command
  rw [lookup_gold]
  simp only [ensure10, ensure20, quant_small, bal_dbU20]
  norm_num
  rfl

theorem ensureT : ensure_treasury_account dbGold 1 = (1, dbGold) := rfl

theorem ensure20g : ensure_user_account dbGold 20 1 = (2, dbT20) := rfl

theorem bal_dbT20 : balance_of dbT20 1 1 = 0 := rfl

theorem eval_give :
    give_currency_command dbGold 1 20 "GOLD" ((1 : ℚ)/1000) =
      (GiveResult.issued, dbGiven) := by
  unfold give_currency_command
  rw [lookup_gold]
  simp only [ensureT, ensure20g, quant_small, bal_dbT20]
  norm_num
  rfl

theorem lookup_gold_paid :
    get_asset_by_symbol dbPaid 1 "GOLD" = some ⟨1, 1, "GOLD", "Gold", 2⟩ := rfl

theorem assetSum_dbPaid : assetSum dbPaid.entries 1 = 0 := by
  norm_num [dbPaid, assetSum, List.filter_cons, List.filter_nil]

theorem eval_delete :
    delete_currency_command dbPaid 1 "GOLD" = (DeleteResult.deleted, dbDeleted) := by
  unfold delete_currency_command
  rw [lookup_gold_paid]
  simp only [assetSum_dbPaid]
  norm_num
  rfl

/-- C8 counterexample: the engine function create_asset performs no symbol
validation — called directly with a symbol failing the charset rule, it
succeeds and inserts the asset row. -/
theorem create_asset_accepts_invalid_symbol :
    is_valid_currency_symbol "bad symbol" = false ∧
    (create_asset DB.empty 1 "bad symbol" "Bad" 2 0).1 = CreateResult.ok 1 ∧
    (⟨1, 1, "bad symbol", "Bad", 2⟩ : Asset) ∈
      (create_asset DB.empty 1 "bad symbol" "Bad" 2 0).2.assets := by
  refine ⟨rfl, rfl, ?_⟩
  decide

/-- C8 amended: it is the command layer (create_currency_command) that
rejects every invalid symbol, with InvalidSymbol, before touching the
database; the engine function itself does not validate. -/
theorem create_command_rejects_invalid_symbol (db : DB) (g : Nat)
    (sym nm : String) (dec : Nat) (s : Int)
    (h : is_valid_currency_symbol sym = false) :
    create_currency_command db g sym nm dec s = (CreateCmdResult.invalidSymbol, db) := by
  unfold create_currency_command
  rw [h]
  simp

/-- Closed instance of create_command_rejects_invalid_symbol. -/
theorem create_command_rejects_invalid_symbol_witness :
    create_currency_command DB.empty 1 "bad symbol" "Bad" 2 0 =
      (CreateCmdResult.invalidSymbol, DB.empty) :=
  create_command_rejects_invalid_symbol DB.empty 1 "bad symbol" "Bad" 2 0 rfl

theorem AccountType.isUser_eq_true (t : AccountType) :
    AccountType.isUser t = true ↔ t = AccountType.user := by
  cases t <;> simp [AccountType.isUser]

theorem users_total_append_treasury (db db' : DB) (g aid tAcc tid : Nat) (amt : ℚ)
    (hacc : db'.accounts = db.accounts)
    (hent : db'.entries = db.entries ++ [⟨tid, tAcc, aid, amt⟩])
    (htreas : ∀ a ∈ db.accounts, a.id = tAcc → a.type ≠ AccountType.user) :
    users_total db' g aid = users_total db g aid := by
  have hany : (db.accounts.any fun a =>
      a.id == tAcc && AccountType.isUser a.type && a.guildId == g) = false := by
    rw [List.any_eq_false]
    intro a ha
    simp only [Bool.and_eq_true, beq_iff_eq, AccountType.isUser_eq_true, not_and]
    intro h1
    exact absurd h1.2 (htreas a ha h1.1)
  unfold users_total
  rw [hacc, hent, List.filter_append]
  have hone : List.filter (fun e => e.assetId == aid &&
      db.accounts.any fun a =>
        a.id == e.accountId && AccountType.isUser a.type && a.guildId == g)
      [(⟨tid, tAcc, aid, amt⟩ : LedgerEntry)] = [] := by
    simp [List.filter_cons, hany]
  rw [hone, List.append_nil]

/-- C9: the fix_database per-asset repair leaves the treasury balance at the
users total plus exactly 1000000; when the treasury already sits at that
target nothing is posted, and otherwise exactly one transaction with one
adjustment entry is appended. -/
theorem fix_asset_rebalances (db : DB) (g tAcc aid : Nat) (sym : String)
    (htreas : ∀ a ∈ db.accounts, a.id = tAcc → a.type ≠ AccountType.user) :
    balance_of (fix_asset db g tAcc aid sym) tAcc aid =
      users_total (fix_asset db g tAcc aid sym) g aid + 1000000 ∧
    (balance_of db tAcc aid = users_total db g aid + 1000000 →
       fix_asset db g tAcc aid sym = db) ∧
    (balance_of db tAcc aid ≠ users_total db g aid + 1000000 →
       (fix_asset db g tAcc aid sym).transactions =
         db.transactions ++ [⟨db.nextTxId, g, "DB修復: " ++ sym ++ " Treasury残高調整"⟩] ∧
       (fix_asset db g tAcc aid sym).entries =
         db.entries ++ [⟨db.nextTxId, tAcc, aid,
           users_total db g aid + 1000000 - balance_of db tAcc aid⟩]) := by
  by_cases hc : balance_of db tAcc aid = users_total db g aid + 1000000
  · have hz : ¬ (users_total db g aid + 1000000 - balance_of db tAcc aid ≠ 0) := by
      rw [not_not, sub_eq_zero]
      exact hc.symm
    have hfix : fix_asset db g tAcc aid sym = db := by
      simp only [fix_asset]
      rw [if_neg hz]
    refine ⟨?_, fun _ => hfix, fun hne => absurd hc hne⟩
    rw [hfix]
    exact hc
  · have hnz : users_total db g aid + 1000000 - balance_of db tAcc aid ≠ 0 := by
      rw [Ne, sub_eq_zero]
      exact fun h => hc h.symm
    have hfix : fix_asset db g tAcc aid sym =
        { db with
            transactions := db.transactions ++
              ([⟨db.nextTxId, g, "DB修復: " ++ sym ++ " Treasury残高調整"⟩] : List Txn),
            nextTxId := db.nextTxId + 1,
            entries := db.entries ++ ([⟨db.nextTxId, tAcc, aid,
              users_total db g aid + 1000000 - balance_of db tAcc aid⟩] : List LedgerEntry) } := by
      simp only [fix_asset]
      rw [if_pos hnz]
    refine ⟨?_, fun heq => absurd heq hc, fun _ => by rw [hfix]; exact ⟨rfl, rfl⟩⟩
    rw [hfix]
    have hut : users_total
        { db with
            transactions := db.transactions ++
              ([⟨db.nextTxId, g, "DB修復: " ++ sym ++ " Treasury残高調整"⟩] : List Txn),
            nextTxId := db.nextTxId + 1,
            entries := db.entries ++ ([⟨db.nextTxId, tAcc, aid,
              users_total db g aid + 1000000 - balance_of db tAcc aid⟩] : List LedgerEntry) }
        g aid = users_total db g aid :=
      users_total_append_treasury db _ g aid tAcc db.nextTxId _ rfl rfl htreas
    rw [hut]
    show entriesSum (db.entries ++ _) tAcc aid = _
    rw [entriesSum_append, entriesSum_singleton, if_pos ⟨rfl, rfl⟩]
    show balance_of db tAcc aid + _ = _
    ring

/-- Closed instance of fix_asset_rebalances at dbGold (treasury balance 0,
users total 0, so a 1000000 adjustment is posted). -/
theorem fix_asset_rebalances_witness :
    balance_of (fix_asset dbGold 1 1 1 "GOLD") 1 1 =
      users_total (fix_asset dbGold 1 1 1 "GOLD") 1 1 + 1000000 ∧
    (balance_of dbGold 1 1 = users_total dbGold 1 1 + 1000000 →
       fix_asset dbGold 1 1 1 "GOLD" = dbGold) ∧
    (balance_of dbGold 1 1 ≠ users_total dbGold 1 1 + 1000000 →
       (fix_asset dbGold 1 1 1 "GOLD").transactions =
         dbGold.transactions ++ [⟨dbGold.nextTxId, 1, "DB修復: " ++ "GOLD" ++ " Treasury残高調整"⟩] ∧
       (fix_asset dbGold 1 1 1 "GOLD").entries =
         dbGold.entries ++ [⟨dbGold.nextTxId, 1, 1,
           users_total dbGold 1 1 + 1000000 - balance_of dbGold 1 1⟩]) :=
  fix_asset_rebalances dbGold 1 1 1 "GOLD" (by decide)

theorem quantizeDown_le (d : Nat) (q : ℚ) (hq : 0 ≤ q) : quantizeDown d q ≤ q := by
  unfold quantizeDown truncTowardZero
  have hp : (0 : ℚ) < 10 ^ d := by positivity
  rw [if_pos (mul_nonneg hq (le_of_lt hp))]
  rw [div_le_iff₀ hp]
  exact Int.floor_le _

/-- C10: in the /pay and /give paths the requested amount is quantized to the
asset's decimals with ROUND_DOWN before the balance check and the posting:
the two posted legs carry exactly the quantized amount, which never exceeds
the requested amount. -/
theorem pay_give_quantization (db : DB) (g fu tu : Nat) (sym : String)
    (amount : ℚ) (asset : Asset) (dbp dbg : DB)
    (hasset : get_asset_by_symbol db g sym = some asset) :
    (pay_currency_command db g fu tu sym amount = (PayResult.paid, dbp) →
       quantizeDown asset.decimals amount ≤ amount ∧
       (dbp.entries.drop db.entries.length).map LedgerEntry.amount =
         [-(quantizeDown asset.decimals amount), quantizeDown asset.decimals amount]) ∧
    (give_currency_command db g tu sym amount = (GiveResult.issued, dbg) →
       quantizeDown asset.decimals amount ≤ amount ∧
       (dbg.entries.drop db.entries.length).map LedgerEntry.amount =
         [-(quantizeDown asset.decimals amount), quantizeDown asset.decimals amount]) := by
  constructor
  · intro hpay
    unfold pay_currency_command at hpay
    by_cases h1 : tu = fu
    · rw [if_pos h1] at hpay
      simp at hpay
    rw [if_neg h1] at hpay
    by_cases h2 : amount ≤ 0
    · rw [if_pos h2] at hpay
      simp at hpay
    rw [if_neg h2] at hpay
    simp only [hasset] at hpay
    refine ⟨quantizeDown_le asset.decimals amount (le_of_lt (lt_of_not_le h2)), ?_⟩
    by_cases h3 : balance_of (ensure_user_account (ensure_user_account db fu g).2 tu g).2
        (ensure_user_account db fu g).1 asset.id < quantizeDown asset.decimals amount
    · rw [if_pos h3] at hpay
      simp at hpay
    rw [if_neg h3] at hpay
    have hdbp : dbp = transfer_currency
        (ensure_user_account (ensure_user_account db fu g).2 tu g).2 g
        (ensure_user_account db fu g).1
        (ensure_user_account (ensure_user_account db fu g).2 tu g).1 asset.id
        (quantizeDown asset.decimals amount)
        ("送金: " ++ toString fu ++ " -> " ++ toString tu) := by
      have := congrArg Prod.snd hpay
      exact this.symm
    rw [hdbp]
    simp only [transfer_currency, List.append_assoc, List.singleton_append]
    rw [ensure_user_account_entries, ensure_user_account_entries, List.drop_left]
    rfl
  · intro hgive
    unfold give_currency_command at hgive
    by_cases h2 : amount ≤ 0
    · rw [if_pos h2] at hgive
      simp at hgive
    rw [if_neg h2] at hgive
    simp only [hasset] at hgive
    refine ⟨quantizeDown_le asset.decimals amount (le_of_lt (lt_of_not_le h2)), ?_⟩
    by_cases h3 : balance_of (ensure_user_account (ensure_treasury_account db g).2 tu g).2
        (ensure_treasury_account db g).1 asset.id < quantizeDown asset.decimals amount
    · rw [if_pos h3] at hgive
      simp at hgive
    rw [if_neg h3] at hgive
    have hdbg : dbg = transfer_currency
        (ensure_user_account (ensure_treasury_account db g).2 tu g).2 g
        (ensure_treasury_account db g).1
        (ensure_user_account (ensure_treasury_account db g).2 tu g).1 asset.id
        (quantizeDown asset.decimals amount)
        ("発行: Treasury -> " ++ toString tu) := by
      have := congrArg Prod.snd hgive
      exact this.symm
    rw [hdbg]
    simp only [transfer_currency, List.append_assoc, List.singleton_append]
    rw [ensure_user_account_entries, ensure_treasury_account_entries, List.drop_left]
    rfl

/-- Closed instance of pay_give_quantization on the concrete 0.001-GOLD pay
and give runs, discharging the success hypothesis of each implication. -/
theorem pay_give_quantization_witness :
    (quantizeDown 2 ((1 : ℚ)/1000) ≤ (1 : ℚ)/1000 ∧
      (dbPaid.entries.drop dbGold.entries.length).map LedgerEntry.amount =
        [-(quantizeDown 2 ((1 : ℚ)/1000)), quantizeDown 2 ((1 : ℚ)/1000)]) ∧
    (quantizeDown 2 ((1 : ℚ)/1000) ≤ (1 : ℚ)/1000 ∧
      (dbGiven.entries.drop dbGold.entries.length).map LedgerEntry.amount =
        [-(quantizeDown 2 ((1 : ℚ)/1000)), quantizeDown 2 ((1 : ℚ)/1000)]) :=
  ⟨(pay_give_quantization dbGold 1 10 20 "GOLD" ((1 : ℚ)/1000)
      ⟨1, 1, "GOLD", "Gold", 2⟩ dbPaid dbGiven lookup_gold).1 eval_pay,
   (pay_give_quantization dbGold 1 10 20 "GOLD" ((1 : ℚ)/1000)
      ⟨1, 1, "GOLD", "Gold", 2⟩ dbPaid dbGiven lookup_gold).2 eval_give⟩

/-- Database produced by create_asset with an initial supply of 1000. -/
def dbGenesis : DB :=
  { users := [],
    assets := [⟨1, 1, "GOLD", "Gold", 2⟩],
    accounts := [⟨1, none, 1, "treasury", AccountType.treasury⟩],
    transactions := [⟨1, 1, "初期供給: GOLD"⟩],
    entries := [⟨1, 1, 1, 1000⟩],
    nextUserId := 1, nextAssetId := 2, nextAccountId := 2, nextTxId := 2 }

theorem eval_genesis :
    create_asset DB.empty 1 "GOLD" "Gold" 2 1000 = (CreateResult.ok 1, dbGenesis) := rfl

/-- C1 counterexample: the genesis transaction written by create_asset for a
positive initial supply has a single 1000-GOLD entry, so its per-asset entry
sum is 1000, not zero. -/
theorem genesis_breaks_zero_sum :
    (create_asset DB.empty 1 "GOLD" "Gold" 2 1000).1 = CreateResult.ok 1 ∧
    ¬ ZeroSumInvariant (create_asset DB.empty 1 "GOLD" "Gold" 2 1000).2 := by
  rw [eval_genesis]
  refine ⟨rfl, ?_⟩
  intro h
  have h0 := h ⟨1, 1, "初期供給: GOLD"⟩ (by simp [dbGenesis])
    ⟨1, 1, 1, 1000⟩ (by simp [dbGenesis]) rfl
  norm_num [dbGenesis, txAssetSum_cons, txAssetSum_nil] at h0

theorem issue_currency_eq_transfer : @issue_currency = @transfer_currency := rfl

theorem transfer_preserves_zero_sum (db : DB) (g fa ta aid : Nat) (n : ℚ) (d : String)
    (hz : ZeroSumInvariant db) (hb : TxIdsBounded db) :
    ZeroSumInvariant (transfer_currency db g fa ta aid n d) := by
  have hold : ∀ eo ∈ db.entries, eo.transactionId ≠ db.nextTxId := fun eo hm =>
    Nat.ne_of_lt (hb.2 eo hm)
  intro t ht e he heq
  simp only [transfer_currency, List.append_assoc, List.singleton_append] at ht he ⊢
  rw [List.mem_append] at ht he
  rw [txAssetSum_append, txAssetSum_cons, txAssetSum_singleton]
  rcases ht with ht | ht
  · have htid : db.nextTxId ≠ t.id := fun h => (Nat.ne_of_lt (hb.1 t ht)) h.symm
    rw [if_neg (fun hcon => htid hcon.1), if_neg (fun hcon => htid hcon.1)]
    rcases he with he | he
    · rw [hz t ht e he heq]
      ring
    · rw [List.mem_cons, List.mem_singleton] at he
      have hetx : e.transactionId = db.nextTxId := by
        rcases he with rfl | rfl <;> rfl
      exact absurd (hetx ▸ heq) htid
  · rw [List.mem_singleton] at ht
    subst ht
    rcases he with he | he
    · exact absurd heq (hold e he)
    · rw [List.mem_cons, List.mem_singleton] at he
      rw [txAssetSum_eq_zero_of_ne db.entries _ _ hold]
      rcases he with rfl | rfl
      · rw [if_pos ⟨rfl, rfl⟩, if_pos ⟨rfl, rfl⟩]
        simp
      · rw [if_pos ⟨rfl, rfl⟩, if_pos ⟨rfl, rfl⟩]
        simp

/-- C1 amended: transfers and issuances preserve the per-transaction
zero-sum property, but the genesis transaction of create_asset and the
adjustment transaction of fix_database each carry a single entry whose
per-asset sum is the posted amount — nonzero whenever that amount is. -/
theorem zero_sum_amended (db : DB) (g fa ta aid tAcc : Nat) (n s : ℚ)
    (d sym nm fsym : String) (dec : Nat)
    (hz : ZeroSumInvariant db) (hb : TxIdsBounded db) :
    ZeroSumInvariant (transfer_currency db g fa ta aid n d) ∧
    ZeroSumInvariant (issue_currency db g fa ta aid n d) ∧
    (get_asset_by_symbol db g sym = none → 0 < s →
       txAssetSum (create_asset db g sym nm dec s).2.entries
         db.nextTxId db.nextAssetId = s) ∧
    (balance_of db tAcc aid ≠ users_total db g aid + 1000000 →
       txAssetSum (fix_asset db g tAcc aid fsym).entries db.nextTxId aid =
         users_total db g aid + 1000000 - balance_of db tAcc aid) := by
  have hold : ∀ eo ∈ db.entries, eo.transactionId ≠ db.nextTxId := fun eo hm =>
    Nat.ne_of_lt (hb.2 eo hm)
  refine ⟨transfer_preserves_zero_sum db g fa ta aid n d hz hb, ?_, ?_, ?_⟩
  · rw [issue_currency_eq_transfer]
    exact transfer_preserves_zero_sum db g fa ta aid n d hz hb
  · intro hfree hs
    unfold get_asset_by_symbol at hfree
    simp only [create_asset, hfree, if_pos hs, ensure_treasury_account_entries,
      ensure_treasury_account_nextTxId]
    rw [txAssetSum_append, txAssetSum_singleton,
      txAssetSum_eq_zero_of_ne db.entries _ _ hold, if_pos ⟨rfl, rfl⟩]
    ring
  · intro hne
    have hnz : users_total db g aid + 1000000 - balance_of db tAcc aid ≠ 0 := by
      rw [Ne, sub_eq_zero]
      exact fun h => hne h.symm
    simp only [fix_asset]
    rw [if_pos hnz]
    rw [txAssetSum_append, txAssetSum_singleton,
      txAssetSum_eq_zero_of_ne db.entries _ _ hold, if_pos ⟨rfl, rfl⟩]
    ring

/-- Closed instance of zero_sum_amended at dbGold. -/
theorem zero_sum_amended_witness :
    ZeroSumInvariant (transfer_currency dbGold 1 1 2 1 5 "t") ∧
    ZeroSumInvariant (issue_currency dbGold 1 1 2 1 5 "t") ∧
    (get_asset_by_symbol dbGold 1 "SILVER" = none → 0 < (7 : ℚ) →
       txAssetSum (create_asset dbGold 1 "SILVER" "Silver" 2 7).2.entries
         dbGold.nextTxId dbGold.nextAssetId = 7) ∧
    (balance_of dbGold 1 1 ≠ users_total dbGold 1 1 + 1000000 →
       txAssetSum (fix_asset dbGold 1 1 1 "GOLD").entries dbGold.nextTxId 1 =
         users_total dbGold 1 1 + 1000000 - balance_of dbGold 1 1) :=
  zero_sum_amended dbGold 1 1 2 1 1 5 7 "t" "SILVER" "Silver" "GOLD" 2
    (by intro t ht; simp [dbGold] at ht)
    (by constructor
        · intro t ht; simp [dbGold] at ht
        · intro e he; simp [dbGold] at he)

/-- C7 counterexample: create GOLD (supply 0), pay 0.001 GOLD (quantized to
two zero legs that pass the zero-balance check), then delete GOLD (total is
zero): all three commands succeed and the final state keeps the transaction
row of the pay with none of its entries — the iff invariant fails. -/
theorem tx_without_entries_reachable :
    (create_currency_command DB.empty 1 "GOLD" "Gold" 2 0).1 = CreateCmdResult.created 1 ∧
    (pay_currency_command (create_currency_command DB.empty 1 "GOLD" "Gold" 2 0).2
        1 10 20 "GOLD" ((1 : ℚ)/1000)).1 = PayResult.paid ∧
    (delete_currency_command (pay_currency_command
        (create_currency_command DB.empty 1 "GOLD" "Gold" 2 0).2
        1 10 20 "GOLD" ((1 : ℚ)/1000)).2 1 "GOLD").1 = DeleteResult.deleted ∧
    ¬ TxEntryIff (delete_currency_command (pay_currency_command
        (create_currency_command DB.empty 1 "GOLD" "Gold" 2 0).2
        1 10 20 "GOLD" ((1 : ℚ)/1000)).2 1 "GOLD").2 := by
  simp only [eval_create, eval_pay, eval_delete]
  refine ⟨trivial, trivial, trivial, ?_⟩
  unfold TxEntryIff
  decide

theorem TxEntryIff_congr (db db' : DB)
    (ht : db'.transactions = db.transactions) (he : db'.entries = db.entries)
    (h : TxEntryIff db) : TxEntryIff db' := by
  unfold TxEntryIff at h ⊢
  rw [ht, he]
  exact h

theorem TxEntryIff_extend (db db' : DB) (t : Txn) (e0 : LedgerEntry)
    (es : List LedgerEntry)
    (ht : db'.transactions = db.transactions ++ [t])
    (he : db'.entries = db.entries ++ (e0 :: es))
    (hall : ∀ e ∈ e0 :: es, e.transactionId = t.id)
    (h : TxEntryIff db) : TxEntryIff db' := by
  obtain ⟨h1, h2⟩ := h
  constructor
  · intro t' ht'
    rw [ht, List.mem_append, List.mem_singleton] at ht'
    rw [he]
    rcases ht' with ht' | rfl
    · obtain ⟨e, he', hee⟩ := h1 t' ht'
      exact ⟨e, List.mem_append_left _ he', hee⟩
    · exact ⟨e0, List.mem_append_right _ (List.mem_cons_self _ _),
        hall e0 (List.mem_cons_self _ _)⟩
  · intro e he'
    rw [he, List.mem_append] at he'
    rw [ht]
    rcases he' with he' | he'
    · obtain ⟨t', ht', htt⟩ := h2 e he'
      exact ⟨t', List.mem_append_left _ ht', htt⟩
    · exact ⟨t, List.mem_append_right _ (List.mem_singleton_self _),
        (hall e he').symm⟩

theorem transfer_preserves_TxEntryIff (db : DB) (g fa ta aid : Nat) (n : ℚ)
    (d : String) (h : TxEntryIff db) :
    TxEntryIff (transfer_currency db g fa ta aid n d) := by
  refine TxEntryIff_extend db _ ⟨db.nextTxId, g, d⟩ ⟨db.nextTxId, fa, aid, -n⟩
    [⟨db.nextTxId, ta, aid, n⟩] ?_ ?_ ?_ h
  · simp [transfer_currency]
  · simp [transfer_currency]
  · intro e he
    rw [List.mem_cons, List.mem_singleton] at he
    rcases he with rfl | rfl <;> rfl

theorem create_asset_preserves_TxEntryIff (db : DB) (g : Nat) (sym nm : String)
    (dec : Nat) (s : ℚ) (h : TxEntryIff db) :
    TxEntryIff (create_asset db g sym nm dec s).2 := by
  unfold create_asset
  cases hf : db.assets.find? (fun a => a.guildId == g && a.symbol == sym) with
  | some a => exact h
  | none =>
      simp only []
      split
      · refine TxEntryIff_extend db _
          ⟨db.nextTxId, g, "初期供給: " ++ sym⟩
          ⟨db.nextTxId,
            (ensure_treasury_account
              { db with
                  assets := db.assets ++ [⟨db.nextAssetId, g, sym, nm, dec⟩],
                  nextAssetId := db.nextAssetId + 1 } g).1,
            db.nextAssetId, s⟩ [] ?_ ?_ ?_ h
        · simp [ensure_treasury_account_transactions, ensure_treasury_account_nextTxId]
        · simp [ensure_treasury_account_entries, ensure_treasury_account_nextTxId]
        · intro e he
          rw [List.mem_singleton] at he
          rw [he]
      · exact TxEntryIff_congr db _
          (by simp [ensure_treasury_account_transactions])
          (by simp [ensure_treasury_account_entries]) h

theorem create_command_preserves_TxEntryIff (db : DB) (g : Nat) (sym nm : String)
    (dec : Nat) (s : Int) (h : TxEntryIff db) :
    TxEntryIff (create_currency_command db g sym nm dec s).2 := by
  unfold create_currency_command
  split
  · exact h
  split
  · exact h
  split
  · next db1 heq =>
      have hp := create_asset_preserves_TxEntryIff db g sym nm dec (s : ℚ) h
      rw [heq] at hp
      exact hp
  · next aid db1 heq =>
      have hp := create_asset_preserves_TxEntryIff db g sym nm dec (s : ℚ) h
      rw [heq] at hp
      exact hp

theorem pay_command_preserves_TxEntryIff (db : DB) (g fu tu : Nat) (sym : String)
    (amt : ℚ) (h : TxEntryIff db) :
    TxEntryIff (pay_currency_command db g fu tu sym amt).2 := by
  unfold pay_currency_command
  split
  · exact h
  split
  · exact h
  rcases hf : get_asset_by_symbol db g sym with _ | asset
  · simp only [hf]
    exact h
  · simp only [hf]
    split
    · exact h
    · apply transfer_preserves_TxEntryIff
      exact TxEntryIff_congr db _
        (by simp [ensure_user_account_transactions])
        (by simp [ensure_user_account_entries]) h

theorem give_command_preserves_TxEntryIff (db : DB) (g tu : Nat) (sym : String)
    (amt : ℚ) (h : TxEntryIff db) :
    TxEntryIff (give_currency_command db g tu sym amt).2 := by
  unfold give_currency_command
  split
  · exact h
  rcases hf : get_asset_by_symbol db g sym with _ | asset
  · simp only [hf]
    exact h
  · simp only [hf]
    split
    · exact h
    · apply transfer_preserves_TxEntryIff
      exact TxEntryIff_congr db _
        (by simp [ensure_user_account_transactions, ensure_treasury_account_transactions])
        (by simp [ensure_user_account_entries, ensure_treasury_account_entries]) h

theorem delete_preserves_entry_tx (db : DB) (g : Nat) (sym : String)
    (h : TxEntryIff db) :
    ∀ e ∈ (delete_currency_command db g sym).2.entries,
      ∃ t ∈ (delete_currency_command db g sym).2.transactions,
        t.id = e.transactionId := by
  unfold delete_currency_command
  split
  · exact fun e he => h.2 e he
  · split
    · exact fun e he => h.2 e he
    · intro e he
      exact h.2 e (List.mem_of_mem_filter he)

/-- C7 amended: the transaction-iff-entries invariant is preserved by asset
creation, transfer and issuance, and asset deletion preserves the
entries-to-transaction direction; the transaction-to-entries direction can be
broken by deletion, which removes an asset's entries but not the transaction
rows they referenced (see the reachable counterexample). -/
theorem tx_entry_iff_amended (db : DB) (g fu tu : Nat) (sym nm dsym : String)
    (dec : Nat) (s : Int) (amt amt' : ℚ)
    (h : TxEntryIff db) :
    TxEntryIff (create_currency_command db g sym nm dec s).2 ∧
    TxEntryIff (pay_currency_command db g fu tu sym amt).2 ∧
    TxEntryIff (give_currency_command db g tu sym amt').2 ∧
    (∀ e ∈ (delete_currency_command db g dsym).2.entries,
       ∃ t ∈ (delete_currency_command db g dsym).2.transactions,
         t.id = e.transactionId) :=
  ⟨create_command_preserves_TxEntryIff db g sym nm dec s h,
   pay_command_preserves_TxEntryIff db g fu tu sym amt h,
   give_command_preserves_TxEntryIff db g tu sym amt' h,
   delete_preserves_entry_tx db g dsym h⟩

/-- Closed instance of tx_entry_iff_amended at dbGold. -/
theorem tx_entry_iff_amended_witness :
    TxEntryIff (create_currency_command dbGold 1 "SILVER" "Silver" 2 3).2 ∧
    TxEntryIff (pay_currency_command dbGold 1 10 20 "SILVER" 1).2 ∧
    TxEntryIff (give_currency_command dbGold 1 20 "SILVER" 1).2 ∧
    (∀ e ∈ (delete_currency_command dbGold 1 "GOLD").2.entries,
       ∃ t ∈ (delete_currency_command dbGold 1 "GOLD").2.transactions,
         t.id = e.transactionId) :=
  tx_entry_iff_amended dbGold 1 10 20 "SILVER" "Silver" "GOLD" 2 3 1 1
    (by unfold TxEntryIff; decide)

end VirtualCrypto
